import Mathlib

/-!
Verification of Nuitka's meta-path based module loader
(`src/nuitka/build/static_src/MetaPathBasedLoader.cpp`).

The C file implements a `sys.meta_path` loader for standalone binaries: a
compile-time table (`Nuitka_MetaPathBasedLoaderEntry`) maps dotted module
names to one of three loading strategies (native compiled init functions,
embedded bytecode blobs, shared-library extension files), with a fallback to
the host interpreter's frozen-module table.

The embedding below models each C function by a Lean function of the same
name.  Host-interpreter facilities (the module dictionary, marshalling,
`dlopen`/`dlsym`, module body execution, frozen imports) are modelled by an
`Env` record of oracle functions; the interpreter-visible state (the module
dictionary `sys.modules` and the global `_Py_PackageContext`) is threaded
explicitly as a `PyState`.  Each loader step additionally emits an `Event`
so that ordering properties (module-table insertion before body execution,
trigger dispatch before the real load, absence of frozen imports) can be
stated over the emitted trace.
-/

set_option autoImplicit false

namespace MetaPathLoader

/-- Kind/flag bits of a loader entry.  The C code reads `entry->flags` only
through the three masks `NUITKA_SHLIB_FLAG`, `NUITKA_BYTECODE_FLAG` and
`NUITKA_PACKAGE_FLAG` (declared in `nuitka/unfreezing.hpp`), so the flag word
is modelled as the three corresponding booleans. -/
structure EntryFlags where
  shlib : Bool
  bytecode : Bool
  package : Bool
deriving DecidableEq

/-- One `Nuitka_MetaPathBasedLoaderEntry`: the dotted module name, the flag
word, whether the native init-function pointer is non-null, and an abstract
identifier standing for the embedded bytecode blob (`bytecode_str` together
with `bytecode_size`). -/
structure LoaderEntry where
  name : String
  flags : EntryFlags
  python_initfunc : Bool
  bytecode_blob : Nat
deriving DecidableEq

/-- The attributes of a host module object that the loader reads or writes:
`__name__`, `__file__`, `__path__` and whether `__loader__` was set to the
meta-path loader object. -/
structure ModuleObj where
  mod_name : String
  mod_file : Option String
  mod_path : Option (List String)
  mod_loader : Bool
deriving DecidableEq

/-- Interpreter state visible to the loader: the module dictionary
`sys.modules` (an association list keyed by module name, modelling
`PyImport_GetModuleDict()`), and the process-global `_Py_PackageContext`. -/
structure PyState where
  modules : List (String × ModuleObj)
  packageContext : Option String
deriving DecidableEq

/-- Model of `PyDict_GetItemString(modules, key)`: first binding of `key`, if any. -/
def dictGet (d : List (String × ModuleObj)) (key : String) : Option ModuleObj :=
  match d with
  | [] => none
  | (k, v) :: rest => if k = key then some v else dictGet rest key

/-- Model of `PyDict_SetItemString(modules, key, v)`: replace the first binding of
`key`, or append a new binding. -/
def dictSet (d : List (String × ModuleObj)) (key : String) (v : ModuleObj) :
    List (String × ModuleObj) :=
  match d with
  | [] => [(key, v)]
  | (k, w) :: rest => if k = key then (k, v) :: rest else (k, w) :: dictSet rest key v

/-- Observable steps taken by the loader, in program order. -/
inductive Event where
  /-- Call of `entry->python_initfunc()` for the entry named `name`. -/
  | initFunc (name : String)
  /-- Call of `PyMarshal_ReadObjectFromString` on the bytecode of `name`. -/
  | marshal (name : String)
  /-- The fresh module was inserted into `sys.modules` under `name`. -/
  | insertModule (name : String)
  /-- Setting of `__path__` on the module named `name`. -/
  | setPathAttr (name : String)
  /-- Run of `PyImport_ExecCodeModuleEx` on the body of `name`; `visible` records
  whether `name` was present in `sys.modules` at that moment. -/
  | execModule (name : String) (visible : Bool)
  /-- Setting of `__loader__` on the module named `name`. -/
  | setLoaderAttr (name : String)
  /-- Call of `dlopen` / `LoadLibraryEx` on `path`. -/
  | dlopenCall (path : String)
  /-- The shared library entry point `symbol` of module `name` was invoked
  while `_Py_PackageContext` held `ctx`. -/
  | entryCall (name : String) (symbol : String) (ctx : Option String)
  /-- Call of `PyImport_ImportFrozenModule` on `name`. -/
  | frozenImport (name : String)
deriving DecidableEq

/-- Result of `find_module`: the loader object (claims responsibility) or the
`Py_None` sentinel (declines). -/
inductive FindResult where
  | loader
  | noneSentinel
deriving DecidableEq

/-- Result of `find_spec`: a `ModuleSpec` built for the name, or `Py_None`. -/
inductive SpecResult where
  | spec (name : String)
  | noneSentinel
deriving DecidableEq

/-- Result of `callIntoShlibModule`.  `importError` and the two
`systemError` kinds model a NULL return with a Python exception set
(recoverable for the caller); `assertFailure` models the failed
`assert( entrypoint )` (fatal). -/
inductive ShlibResult where
  /-- Failure of `dlopen`/`LoadLibraryEx`: `ImportError` set, NULL returned. -/
  | importError
  /-- The entry symbol was absent: `assert( entrypoint )` fails. -/
  | assertFailure
  /-- Null module after the call ("dynamic module not initialized properly"):
  `SystemError`, NULL. -/
  | initFailed
  /-- Null result from `PyModule_GetDef`: `SystemError`, NULL. -/
  | noModuleDef
  /-- The `_PyImport_FixupExtension*` call failed: NULL returned. -/
  | fixupFailed
  /-- Success: the finished module object. -/
  | ok (m : ModuleObj)
deriving DecidableEq

/-- Result of `loadModule`: the looked-up module, a NULL return with an
exception set, or a process abort (failed assert / `abort()`). -/
inductive LoadResult where
  | ok (m : ModuleObj)
  | fail
  | abort
deriving DecidableEq

/-- Result of `IMPORT_COMPILED_MODULE`: a module, a propagated NULL, a
process abort, or the `Py_None` "no opinion" return. -/
inductive ImportResult where
  | ok (m : ModuleObj)
  | error
  | abort
  | abstain
deriving DecidableEq

/-- Outcome of `PyImport_ImportFrozenModule`: `-1`, `0` or `1`. -/
inductive FrozenOutcome where
  | err
  | notFound
  | loaded
deriving DecidableEq

/-- Build-configuration switches and host-interpreter oracles.  Functions of
the host interpreter or the platform that the C file merely calls are
modelled as oracle fields, so every theorem quantifies over their
behaviour. -/
structure Env where
  /-- Whether `_NUITKA_STANDALONE` is defined. -/
  standalone : Bool
  /-- Whether `_WIN32` is defined. -/
  isWindows : Bool
  /-- Whether `PYTHON_VERSION >= 300`. -/
  python3 : Bool
  /-- Whether `PYTHON_VERSION >= 330`. -/
  python33 : Bool
  /-- Value of `getBinaryDirectoryHostEncoded()`. -/
  binaryDir : String
  /-- The platform path separator `SEP`. -/
  sep : Char
  /-- Whether `PyMarshal_ReadObjectFromString` succeeds on a given blob. -/
  marshalOk : Nat → Bool
  /-- Outcome of `dlopen` / `LoadLibraryEx`: a library handle, or failure. -/
  dlopen : String → Option Nat
  /-- Outcome of `dlsym` / `GetProcAddress`: whether the symbol exists in the
  handle. -/
  dlsym : Nat → String → Bool
  /-- Behaviour of a shared library's entry point, keyed by symbol name and
  the ambient `_Py_PackageContext` at call time: the resulting module object
  (returned directly on Python 3, or found in `sys.modules` on Python 2), or
  `none` for a failed initialization. -/
  entryInit : String → Option String → Option ModuleObj
  /-- Whether `PyModule_GetDef` is non-null for a module (Python 3 path). -/
  moduleHasDef : ModuleObj → Bool
  /-- Whether the `_PyImport_FixupExtension*` call succeeds. -/
  fixupOk : Bool
  /-- Whether executing the body of a given module succeeds.  Body execution
  is modelled as not touching the attributes the loader sets. -/
  execOk : String → Bool
  /-- Effect of `entry->python_initfunc()` on `sys.modules` (compiled native
  modules register themselves), keyed by entry name. -/
  initEffect : String → List (String × ModuleObj) → List (String × ModuleObj)
  /-- Whether `ERROR_OCCURRED()` after `entry->python_initfunc()`. -/
  initError : String → Bool
  /-- Outcome of `PyImport_ImportFrozenModule`. -/
  frozenRun : String → FrozenOutcome
  /-- Effect of a frozen import on `sys.modules`. -/
  frozenEffect : String → List (String × ModuleObj) → List (String × ModuleObj)
  /-- The registered `loader_entries` table (NULL-name terminator dropped). -/
  entries : List LoaderEntry
  /-- The host's `PyImport_FrozenModules` table (NULL-name terminator
  dropped). -/
  frozen : List String

/-- Model of `hasFrozenModule`: linear scan of `PyImport_FrozenModules`, true exactly
when some entry's name compares `strcmp`-equal. -/
def hasFrozenModule (frozen : List String) (name : String) : Bool :=
  match frozen with
  | [] => false
  | f :: rest => if f = name then true else hasFrozenModule rest name

/-- Model of `findEntry`: scan `loader_entries` until the NULL-name terminator,
returning the first entry whose name compares `strcmp`-equal. -/
def findEntry (entries : List LoaderEntry) (name : String) : Option LoaderEntry :=
  match entries with
  | [] => none
  | e :: rest => if name = e.name then some e else findEntry rest name

/-- Model of `_path_unfreezer_find_module` (argument parsing elided): scan the entry
table (the same loop as `findEntry`); on a hit return the loader object;
otherwise, if the name is frozen, return the loader object; otherwise return
`Py_None`. -/
def find_module (entries : List LoaderEntry) (frozen : List String) (name : String) :
    FindResult :=
  match findEntry entries name with
  | some _ => FindResult.loader
  | none =>
    if hasFrozenModule frozen name then FindResult.loader else FindResult.noneSentinel

/-- Model of `_path_unfreezer_find_spec` (argument parsing and the `importlib`
machinery that constructs the `ModuleSpec` object elided): return `Py_None`
when `findEntry` misses, else a spec for the name wrapping the loader. -/
def find_spec (entries : List LoaderEntry) (name : String) : SpecResult :=
  match findEntry entries name with
  | none => SpecResult.noneSentinel
  | some _ => SpecResult.spec name

/-- Registration state: the `loader_entries` global (tables identified by
their address, modelled as a `Nat`), and how many times the loader object was
built and inserted into `sys.meta_path`. -/
structure RegState where
  loader_entries : Option Nat
  metaPathInstalls : Nat
deriving DecidableEq

/-- Result of `registerMetaPathBasedUnfreezer`. -/
inductive RegisterResult where
  /-- First call: the table was installed and the loader registered. -/
  | installed
  /-- Repeated call with the same table: early return. -/
  | noop
  /-- Repeated call with a different table: `assert` fails (fatal). -/
  | assertFailure
deriving DecidableEq

/-- Model of `registerMetaPathBasedUnfreezer`: if `loader_entries` is set,
assert the argument is the identical table and return; otherwise install the
table, build the loader class and insert it into `sys.meta_path`. -/
def registerMetaPathBasedUnfreezer (st : RegState) (table : Nat) :
    RegState × RegisterResult :=
  match st.loader_entries with
  | some existing =>
    if table = existing then (st, RegisterResult.noop)
    else (st, RegisterResult.assertFailure)
  | none =>
    ({ loader_entries := some table, metaPathInstalls := st.metaPathInstalls + 1 },
      RegisterResult.installed)

/-- The suffix of `l` after the last occurrence of `c`, i.e. `p + 1` for
`p = strrchr(l, c)`; `none` when `c` does not occur. -/
def strrchrSplit (c : Char) : List Char → Option (List Char)
  | [] => none
  | x :: rest =>
    match strrchrSplit c rest with
    | some s => some s
    | none => if x = c then some rest else none

/-- The `name` variable of `callIntoShlibModule`: the part of the dotted name
after the last dot (`dot + 1`), or the whole name when there is no dot. -/
def moduleLeafName (full_name : String) : String :=
  match strrchrSplit '.' full_name.data with
  | some s => String.mk s
  | none => full_name

/-- The `package` variable of `callIntoShlibModule`, as later assigned to
`_Py_PackageContext`: the C code sets `package = (char *)full_name` — the
full dotted name, not truncated at the dot — whenever the name contains a
dot, and `NULL` otherwise. -/
def modulePackageContextValue (full_name : String) : Option String :=
  match strrchrSplit '.' full_name.data with
  | some _ => some full_name
  | none => none

/-- The `entry_function_name` buffer: `"init%s"` before Python 3 and
`"PyInit_%s"` from Python 3 on, with the leaf name substituted. -/
def entry_function_name (python3 : Bool) (full_name : String) : String :=
  (if python3 then "PyInit_" else "init") ++ moduleLeafName full_name

/-- The character loop of `copyModulenameAsPath`: copy, rewriting `'.'` to
`SEP`. -/
def copyChars (sep : Char) : List Char → List Char
  | [] => []
  | c :: rest => (if c = '.' then sep else c) :: copyChars sep rest

/-- Model of `copyModulenameAsPath`: the module name with every dot replaced by the
platform separator. -/
def copyModulenameAsPath (sep : Char) (module_name : String) : String :=
  String.mk (copyChars sep module_name.data)

/-- Modelled from the spec: `MAKE_RELATIVE_PATH` is defined elsewhere in the
repository (not under `src/`); per the spec it computes the given relative
path "relative to the distribution's base directory", i.e. joins the binary
base directory with the argument. -/
def MAKE_RELATIVE_PATH (binaryDir : String) (sep : Char) (rel : String) : String :=
  binaryDir ++ String.mk [sep] ++ rel

/-- The filename computation of `loadModule`'s shared-library branch:
`strcpy` the binary directory, append `SEP`, append the name via
`copyModulenameAsPath`, then `strcat` the platform suffix (`.pyd` on
Windows, `.so` otherwise). -/
def shlibFilename (binaryDir : String) (sep : Char) (isWindows : Bool)
    (module_name : String) : String :=
  binaryDir ++ String.mk [sep] ++ copyModulenameAsPath sep module_name ++
    (if isWindows then ".pyd" else ".so")

/-- Model of `callIntoShlibModule`: compute the entry symbol from the leaf name, open
the library (failure: `ImportError`, NULL return), resolve the symbol
(absence: `assert( entrypoint )` fails), then save `_Py_PackageContext`, set
it to the `package` value, invoke the entry point, and restore the saved
context before anything else happens.  Afterwards: a NULL module is a
`SystemError`; on Python 3 a module without a `PyModuleDef` is a
`SystemError`; `__file__` is set (a failure there is cleared and ignored);
finally the host's `_PyImport_FixupExtension*` bookkeeping runs, which also
records the module in `sys.modules`. -/
def callIntoShlibModule (env : Env) (st : PyState) (full_name filename : String) :
    PyState × List Event × ShlibResult :=
  let symbol := entry_function_name env.python3 full_name
  match env.dlopen filename with
  | none => (st, [Event.dlopenCall filename], ShlibResult.importError)
  | some handle =>
    if env.dlsym handle symbol = false then
      (st, [Event.dlopenCall filename], ShlibResult.assertFailure)
    else
      let package := modulePackageContextValue full_name
      let old_context := st.packageContext
      -- _Py_PackageContext = package; (*entrypoint)(); _Py_PackageContext = old_context
      let initRes := env.entryInit symbol package
      let ev := [Event.dlopenCall filename, Event.entryCall full_name symbol package]
      let st1 : PyState := { st with packageContext := old_context }
      match initRes with
      | none => (st1, ev, ShlibResult.initFailed)
      | some module0 =>
        if env.python3 && !env.moduleHasDef module0 then
          (st1, ev, ShlibResult.noModuleDef)
        else
          let module1 : ModuleObj := { module0 with mod_file := some filename }
          if env.fixupOk = false then (st1, ev, ShlibResult.fixupFailed)
          else
            (⟨dictSet st1.modules full_name module1, st1.packageContext⟩,
              ev, ShlibResult.ok module1)

/-- Model of `loadTriggeredModule`: build `name ++ trigger_name`, look it up in the
entry table; when present, call its `python_initfunc` (compiled trigger
modules register themselves); a Python error after the call is fatal
(`PyErr_Print(); abort();`), reported here as the boolean. -/
def loadTriggeredModule (env : Env) (st : PyState) (name trigger_name : String) :
    PyState × List Event × Bool :=
  let trigger_module_name := name ++ trigger_name
  match findEntry env.entries trigger_module_name with
  | none => (st, [], false)
  | some _ =>
    let st1 : PyState := ⟨env.initEffect trigger_module_name st.modules, st.packageContext⟩
    (st1, [Event.initFunc trigger_module_name], env.initError trigger_module_name)

/-- Model of `LOOKUP_SUBSCRIPT( PyImport_GetModuleDict(), module_name )` as
at the end of `loadModule`: the found module, or a NULL return with a
`KeyError` set. -/
def lookupResult (st : PyState) (module_name : String) (tr : List Event) :
    PyState × List Event × LoadResult :=
  match dictGet st.modules module_name with
  | some m => (st, tr, LoadResult.ok m)
  | none => (st, tr, LoadResult.fail)

/-- Model of `loadModule`: dispatch on the entry's flags.

* Shared library (standalone builds only): compute the on-disk filename,
  call `callIntoShlibModule` (its return value is discarded by the C code),
  then fall through to the common `ERROR_OCCURRED()` check and the final
  `LOOKUP_SUBSCRIPT( PyImport_GetModuleDict(), module_name )`.
* Bytecode: unmarshal the blob (failure: `PyErr_Print(); abort();`), assert
  the name is absent from `sys.modules`, create a fresh module and insert it
  under the entry name, compute the synthetic source path, for packages set
  `__path__` to a one-element list of the relative directory path, then run
  `PyImport_ExecCodeModuleEx` (which sets `__file__` and executes the body;
  on Python >= 3.3 the C code then sets `__loader__`; a body failure is
  reported at the `ERROR_OCCURRED()` check).
* Otherwise: assert the shlib flag is clear and `python_initfunc` non-null,
  and call it directly. -/
def loadModule (env : Env) (st : PyState) (module_name : String) (entry : LoaderEntry) :
    PyState × List Event × LoadResult :=
  if env.standalone && entry.flags.shlib then
    let filename := shlibFilename env.binaryDir env.sep env.isWindows entry.name
    let r := callIntoShlibModule env st entry.name filename
    match r.2.2 with
    | ShlibResult.assertFailure => (r.1, r.2.1, LoadResult.abort)
    | ShlibResult.ok _ => lookupResult r.1 module_name r.2.1
    | _ => (r.1, r.2.1, LoadResult.fail)
  else if entry.flags.bytecode then
    if env.marshalOk entry.bytecode_blob = false then
      (st, [Event.marshal entry.name], LoadResult.abort)
    else if (dictGet st.modules entry.name).isSome then
      (st, [Event.marshal entry.name], LoadResult.abort)
    else
      let module0 : ModuleObj :=
        { mod_name := entry.name, mod_file := none, mod_path := none, mod_loader := false }
      let st1 : PyState := ⟨dictSet st.modules entry.name module0, st.packageContext⟩
      let buffer := copyModulenameAsPath env.sep entry.name
      let module_path :=
        if entry.flags.package then
          MAKE_RELATIVE_PATH env.binaryDir env.sep
            (buffer ++ String.mk [env.sep] ++ "__init__.py")
        else
          MAKE_RELATIVE_PATH env.binaryDir env.sep (buffer ++ ".py")
      let evs0 := [Event.marshal entry.name, Event.insertModule entry.name]
      let stEvs :=
        if entry.flags.package then
          let module_path_entry := MAKE_RELATIVE_PATH env.binaryDir env.sep buffer
          let module1 : ModuleObj := { module0 with mod_path := some [module_path_entry] }
          ((⟨dictSet st1.modules entry.name module1, st1.packageContext⟩ : PyState),
            evs0 ++ [Event.setPathAttr entry.name])
        else (st1, evs0)
      let st2 := stEvs.1
      let visible := (dictGet st2.modules entry.name).isSome
      let evs2 := stEvs.2 ++ [Event.execModule entry.name visible]
      if env.execOk entry.name = false then
        (st2, evs2, LoadResult.fail)
      else
        let st3 : PyState :=
          match dictGet st2.modules entry.name with
          | some m =>
            ⟨dictSet st2.modules entry.name { m with mod_file := some module_path },
              st2.packageContext⟩
          | none => st2
        let stEvs3 :=
          if env.python33 then
            ((match dictGet st3.modules entry.name with
              | some m =>
                (⟨dictSet st3.modules entry.name { m with mod_loader := true },
                  st3.packageContext⟩ : PyState)
              | none => st3),
              evs2 ++ [Event.setLoaderAttr entry.name])
          else (st3, evs2)
        lookupResult stEvs3.1 module_name stEvs3.2
  else
    if entry.flags.shlib then
      (st, [], LoadResult.abort)
    else if entry.python_initfunc = false then
      (st, [], LoadResult.abort)
    else
      let st1 : PyState := ⟨env.initEffect entry.name st.modules, st.packageContext⟩
      let evs := [Event.initFunc entry.name]
      if env.initError entry.name then (st1, evs, LoadResult.fail)
      else lookupResult st1 module_name evs

/-- Model of `IMPORT_COMPILED_MODULE`: look the name up in the entry table;
`frozen_import` (no entry, but frozen); when either holds run the
`-preLoad` trigger; dispatch to `loadModule` for a found entry (a NULL
result propagates immediately); otherwise delegate to the host's
`PyImport_ImportFrozenModule` and on success fetch the module from
`sys.modules`; when a module was produced run the `-postLoad` trigger and
return it, else return `Py_None`. -/
def IMPORT_COMPILED_MODULE (env : Env) (st : PyState) (name : String) :
    PyState × List Event × ImportResult :=
  let entry := findEntry env.entries name
  let frozen_import := entry.isNone && hasFrozenModule env.frozen name
  if entry.isSome || frozen_import then
    let pre := loadTriggeredModule env st name "-preLoad"
    if pre.2.2 then (pre.1, pre.2.1, ImportResult.abort)
    else
      match entry with
      | some e =>
        let r := loadModule env pre.1 name e
        match r.2.2 with
        | LoadResult.abort => (r.1, pre.2.1 ++ r.2.1, ImportResult.abort)
        | LoadResult.fail => (r.1, pre.2.1 ++ r.2.1, ImportResult.error)
        | LoadResult.ok m =>
          let post := loadTriggeredModule env r.1 name "-postLoad"
          if post.2.2 then
            (post.1, pre.2.1 ++ r.2.1 ++ post.2.1, ImportResult.abort)
          else
            (post.1, pre.2.1 ++ r.2.1 ++ post.2.1, ImportResult.ok m)
      | none =>
        let st2 : PyState := ⟨env.frozenEffect name pre.1.modules, pre.1.packageContext⟩
        let ev2 := pre.2.1 ++ [Event.frozenImport name]
        match env.frozenRun name with
        | FrozenOutcome.err => (st2, ev2, ImportResult.error)
        | FrozenOutcome.notFound => (st2, ev2, ImportResult.abstain)
        | FrozenOutcome.loaded =>
          match dictGet st2.modules name with
          | none => (st2, ev2, ImportResult.abstain)
          | some m =>
            let post := loadTriggeredModule env st2 name "-postLoad"
            if post.2.2 then (post.1, ev2 ++ post.2.1, ImportResult.abort)
            else (post.1, ev2 ++ post.2.1, ImportResult.ok m)
  else
    (st, [], ImportResult.abstain)

/-! ### Helper lemmas -/

theorem hasFrozenModule_iff_mem (frozen : List String) (name : String) :
    hasFrozenModule frozen name = true ↔ name ∈ frozen := by
  induction frozen with
  | nil => simp [hasFrozenModule]
  | cons f rest ih =>
    by_cases h : f = name
    · simp [hasFrozenModule, h]
    · simp [hasFrozenModule, h, ih, Ne.symm h]

theorem findEntry_isSome_iff (entries : List LoaderEntry) (name : String) :
    (findEntry entries name).isSome = true ↔ ∃ e ∈ entries, e.name = name := by
  induction entries with
  | nil => simp [findEntry]
  | cons e rest ih =>
    by_cases h : name = e.name
    · simp [findEntry, h]
    · simp only [findEntry, h, if_false, ih, List.mem_cons]
      constructor
      · rintro ⟨x, hx, hn⟩
        exact ⟨x, Or.inr hx, hn⟩
      · rintro ⟨x, hx | hx, hn⟩
        · subst hx
          exact absurd hn.symm h
        · exact ⟨x, hx, hn⟩

theorem findEntry_name {entries : List LoaderEntry} {name : String} {e : LoaderEntry}
    (h : findEntry entries name = some e) : e.name = name := by
  induction entries with
  | nil => simp [findEntry] at h
  | cons e0 rest ih =>
    by_cases h0 : name = e0.name
    · simp [findEntry, h0] at h
      rw [← h, h0]
    · simp [findEntry, h0] at h
      exact ih h

theorem dictGet_dictSet_self (d : List (String × ModuleObj)) (k : String) (v : ModuleObj) :
    dictGet (dictSet d k v) k = some v := by
  induction d with
  | nil => simp [dictGet, dictSet]
  | cons p rest ih =>
    by_cases h : p.1 = k
    · simp [dictGet, dictSet, h]
    · simp [dictGet, dictSet, h, ih]

theorem copyChars_append (sep : Char) (l1 l2 : List Char) :
    copyChars sep (l1 ++ l2) = copyChars sep l1 ++ copyChars sep l2 := by
  induction l1 with
  | nil => simp [copyChars]
  | cons c rest ih => simp [copyChars, ih]

theorem copyChars_of_not_mem (sep : Char) (l : List Char) (h : '.' ∉ l) :
    copyChars sep l = l := by
  induction l with
  | nil => simp [copyChars]
  | cons c rest ih =>
    simp only [List.mem_cons, not_or] at h
    simp [copyChars, Ne.symm h.1, ih h.2]

theorem strrchrSplit_of_not_mem (c : Char) (l : List Char) (h : c ∉ l) :
    strrchrSplit c l = none := by
  induction l with
  | nil => rfl
  | cons x rest ih =>
    simp only [List.mem_cons, not_or] at h
    simp [strrchrSplit, ih h.2, Ne.symm h.1]

theorem strrchrSplit_append_last (c : Char) (l1 l2 : List Char) (h : c ∉ l2) :
    strrchrSplit c (l1 ++ c :: l2) = some l2 := by
  induction l1 with
  | nil => simp [strrchrSplit, strrchrSplit_of_not_mem c l2 h]
  | cons x rest ih => simp [strrchrSplit, ih]

theorem strrchrSplit_isSome_of_mem (c : Char) (l : List Char) (h : c ∈ l) :
    (strrchrSplit c l).isSome = true := by
  induction l with
  | nil => simp at h
  | cons x rest ih =>
    rcases List.mem_cons.1 h with h1 | h2
    · subst h1
      cases hr : strrchrSplit c rest with
      | some s => simp [strrchrSplit, hr]
      | none => simp [strrchrSplit, hr]
    · have hs := ih h2
      cases hr : strrchrSplit c rest with
      | some s => simp [strrchrSplit, hr]
      | none => rw [hr] at hs; simp at hs

/-- The `package` variable, extensionally: the full dotted name when the name
contains a dot, `NULL` otherwise. -/
theorem modulePackageContextValue_spec (full_name : String) :
    ('.' ∈ full_name.data → modulePackageContextValue full_name = some full_name) ∧
    ('.' ∉ full_name.data → modulePackageContextValue full_name = none) := by
  constructor
  · intro h
    have := strrchrSplit_isSome_of_mem '.' full_name.data h
    unfold modulePackageContextValue
    cases hs : strrchrSplit '.' full_name.data
    · rw [hs] at this; simp at this
    · rfl
  · intro h
    unfold modulePackageContextValue
    rw [strrchrSplit_of_not_mem '.' full_name.data h]

theorem string_ne_append_of_data_ne_nil (a s : String) (h : s.data ≠ []) : a ≠ a ++ s := by
  intro hEq
  have hd : a.data = a.data ++ s.data := by
    conv_lhs => rw [hEq]
    exact String.data_append a s
  have hlen : a.data.length = (a.data ++ s.data).length := congrArg List.length hd
  rw [List.length_append] at hlen
  have hz : s.data.length = 0 := by omega
  exact h (List.length_eq_zero.1 hz)

theorem string_append_left_cancel {a s t : String} (h : a ++ s = a ++ t) : s = t := by
  have hd : a.data ++ s.data = a.data ++ t.data := by
    rw [← String.data_append, ← String.data_append, h]
  exact String.ext (List.append_cancel_left hd)

/-! ### Claim theorems: the finder surface and registration -/

/-- C1: the legacy `find_module` returns the loader object exactly when the
name matches a registry entry name byte-for-byte or appears in the host's
frozen-module table, and returns the `Py_None` sentinel for every other
name. -/
theorem find_module_claims_iff (entries : List LoaderEntry) (frozen : List String)
    (name : String) :
    (find_module entries frozen name = FindResult.loader ↔
      (∃ e ∈ entries, e.name = name) ∨ name ∈ frozen) ∧
    (find_module entries frozen name = FindResult.noneSentinel ↔
      ¬ ((∃ e ∈ entries, e.name = name) ∨ name ∈ frozen)) := by
  cases hE : findEntry entries name with
  | some e =>
    have hmem : ∃ x ∈ entries, x.name = name := by
      have h1 := (findEntry_isSome_iff entries name).1
      rw [hE] at h1
      exact h1 rfl
    simp [find_module, hE, hmem]
  | none =>
    have hnomem : ¬ ∃ x ∈ entries, x.name = name := by
      intro hm
      have h1 := (findEntry_isSome_iff entries name).2 hm
      rw [hE] at h1
      simp at h1
    cases hfr : hasFrozenModule frozen name with
    | true => simp [find_module, hE, hfr, (hasFrozenModule_iff_mem frozen name).1 hfr]
    | false =>
      have hnf : ¬ name ∈ frozen := fun hm => by
        have hh := (hasFrozenModule_iff_mem frozen name).2 hm
        rw [hfr] at hh
        exact Bool.false_ne_true hh
      simp [find_module, hE, hfr, hnomem, hnf]

/-- C3: `registerMetaPathBasedUnfreezer` installs the entry table exactly
once; with nothing installed it installs the table and registers the loader;
a repeated call with the identical table is a state-preserving no-op; a
repeated call with a different table trips the `assert` (fatal), changing
nothing. -/
theorem registerMetaPathBasedUnfreezer_once (st : RegState) (t t' : Nat) :
    (st.loader_entries = none →
      registerMetaPathBasedUnfreezer st t =
        ({ loader_entries := some t, metaPathInstalls := st.metaPathInstalls + 1 },
          RegisterResult.installed)) ∧
    (st.loader_entries = some t →
      registerMetaPathBasedUnfreezer st t = (st, RegisterResult.noop)) ∧
    (st.loader_entries = some t → t' ≠ t →
      registerMetaPathBasedUnfreezer st t' = (st, RegisterResult.assertFailure)) := by
  refine ⟨fun h => ?_, fun h => ?_, fun h hne => ?_⟩
  · unfold registerMetaPathBasedUnfreezer
    rw [h]
  · unfold registerMetaPathBasedUnfreezer
    rw [h]
    simp
  · unfold registerMetaPathBasedUnfreezer
    rw [h]
    simp [hne]

theorem registerMetaPathBasedUnfreezer_once_witness :
    registerMetaPathBasedUnfreezer ⟨none, 0⟩ 1 = (⟨some 1, 1⟩, RegisterResult.installed) ∧
    registerMetaPathBasedUnfreezer ⟨some 1, 1⟩ 1 = (⟨some 1, 1⟩, RegisterResult.noop) ∧
    registerMetaPathBasedUnfreezer ⟨some 1, 1⟩ 2 = (⟨some 1, 1⟩, RegisterResult.assertFailure) :=
  ⟨(registerMetaPathBasedUnfreezer_once ⟨none, 0⟩ 1 2).1 rfl,
   (registerMetaPathBasedUnfreezer_once ⟨some 1, 1⟩ 1 2).2.1 rfl,
   (registerMetaPathBasedUnfreezer_once ⟨some 1, 1⟩ 1 2).2.2 rfl (by decide)⟩

/-- C9: for a name with no registry entry, the modern `find_spec` returns
the `Py_None` sentinel even when the name is in the host's frozen-module
table, while the legacy `find_module` claims such a name. -/
theorem find_spec_ignores_frozen (entries : List LoaderEntry) (frozen : List String)
    (name : String) (h : findEntry entries name = none) :
    find_spec entries name = SpecResult.noneSentinel ∧
    (hasFrozenModule frozen name = true →
      find_module entries frozen name = FindResult.loader) := by
  constructor
  · unfold find_spec
    rw [h]
  · intro hf
    unfold find_module
    rw [h]
    simp [hf]

theorem find_spec_ignores_frozen_witness :
    find_spec [] "sys" = SpecResult.noneSentinel ∧
    find_module [] ["sys"] "sys" = FindResult.loader :=
  ⟨(find_spec_ignores_frozen [] ["sys"] "sys" rfl).1,
   (find_spec_ignores_frozen [] ["sys"] "sys" rfl).2 (by decide)⟩

/-! ### Claim theorems: shared-library path and symbol computation -/

/-- C5: for a SharedLibrary entry with dotted name `pkg.sub.ext` (dot-free
components), the computed on-disk path is the binary base directory, a
separator, the dotted name with dots replaced by the separator, and the
platform suffix (`.pyd` on Windows, `.so` otherwise); and the computed entry
symbol is the version-dependent prefix (`init` before Python 3, `PyInit_`
from Python 3 on) followed by the leaf component. -/
theorem shlib_path_and_symbol (base pkg sub ext : String) (sep : Char) (win py3 : Bool)
    (hp : '.' ∉ pkg.data) (hs : '.' ∉ sub.data) (he : '.' ∉ ext.data) :
    shlibFilename base sep win (pkg ++ "." ++ sub ++ "." ++ ext) =
      base ++ String.mk [sep] ++ pkg ++ String.mk [sep] ++ sub ++ String.mk [sep] ++ ext ++
        (if win then ".pyd" else ".so") ∧
    entry_function_name py3 (pkg ++ "." ++ sub ++ "." ++ ext) =
      (if py3 then "PyInit_" else "init") ++ ext := by
  have hdot : ("." : String).data = ['.'] := rfl
  have hdata : (pkg ++ "." ++ sub ++ "." ++ ext).data =
      (pkg.data ++ '.' :: sub.data) ++ '.' :: ext.data := by
    simp [String.data_append, hdot]
  have h1 : copyChars sep ((pkg.data ++ '.' :: sub.data) ++ '.' :: ext.data) =
      (pkg.data ++ sep :: sub.data) ++ sep :: ext.data := by
    rw [copyChars_append, copyChars_append]
    simp [copyChars, copyChars_of_not_mem sep pkg.data hp,
      copyChars_of_not_mem sep sub.data hs, copyChars_of_not_mem sep ext.data he]
  constructor
  · apply String.ext
    simp only [shlibFilename, copyModulenameAsPath, String.data_append, hdata, h1]
    simp
  · unfold entry_function_name moduleLeafName
    rw [hdata, strrchrSplit_append_last '.' _ ext.data he]

theorem shlib_path_and_symbol_witness :
    shlibFilename "B" '/' false ("pkg" ++ "." ++ "sub" ++ "." ++ "ext") =
      "B" ++ String.mk ['/'] ++ "pkg" ++ String.mk ['/'] ++ "sub" ++ String.mk ['/'] ++
        "ext" ++ (if false then ".pyd" else ".so") ∧
    entry_function_name true ("pkg" ++ "." ++ "sub" ++ "." ++ "ext") =
      (if true then "PyInit_" else "init") ++ "ext" :=
  shlib_path_and_symbol "B" "pkg" "sub" "ext" '/' false true
    (by decide) (by decide) (by decide)

/-! ### Claim theorems: shared-library loading -/

/-- Every run of `callIntoShlibModule` leaves `_Py_PackageContext` as it
found it, and emits either just the open event (open or symbol failure) or
the open event followed by exactly one entry-point call whose ambient
context is the `package` value. -/
theorem callIntoShlibModule_spec (env : Env) (st : PyState) (full_name filename : String) :
    (callIntoShlibModule env st full_name filename).1.packageContext = st.packageContext ∧
    ((callIntoShlibModule env st full_name filename).2.1 = [Event.dlopenCall filename] ∨
     (callIntoShlibModule env st full_name filename).2.1 =
       [Event.dlopenCall filename,
        Event.entryCall full_name (entry_function_name env.python3 full_name)
          (modulePackageContextValue full_name)]) := by
  cases hop : env.dlopen filename with
  | none => simp [callIntoShlibModule, hop]
  | some h =>
    cases hsym : env.dlsym h (entry_function_name env.python3 full_name) with
    | false => simp [callIntoShlibModule, hop, hsym]
    | true =>
      cases hinit : env.entryInit (entry_function_name env.python3 full_name)
          (modulePackageContextValue full_name) with
      | none => simp [callIntoShlibModule, hop, hsym, hinit]
      | some m =>
        cases hdef : env.python3 && !env.moduleHasDef m with
        | true => simp [callIntoShlibModule, hop, hsym, hinit, hdef]
        | false =>
          cases hfix : env.fixupOk with
          | false => simp [callIntoShlibModule, hop, hsym, hinit, hdef, hfix]
          | true => simp [callIntoShlibModule, hop, hsym, hinit, hdef, hfix]

/-- C7: in the shared-library loader, a failed open of the dynamic library
is a recoverable error — an `ImportError` is set and NULL returned to the
caller, no abort — whereas a missing entry symbol after a successful open
trips `assert( entrypoint )`, a fatal build-contract violation rather than a
recoverable error. -/
theorem shlib_open_error_recoverable_symbol_fatal (env : Env) (st : PyState)
    (full_name filename : String) :
    (env.dlopen filename = none →
      callIntoShlibModule env st full_name filename =
        (st, [Event.dlopenCall filename], ShlibResult.importError)) ∧
    (∀ h : Nat, env.dlopen filename = some h →
      env.dlsym h (entry_function_name env.python3 full_name) = false →
      callIntoShlibModule env st full_name filename =
        (st, [Event.dlopenCall filename], ShlibResult.assertFailure)) := by
  constructor
  · intro hop
    simp [callIntoShlibModule, hop]
  · intro h hop hsym
    simp [callIntoShlibModule, hop, hsym]

/-- A fully concrete environment for evaluating the model on witnesses. -/
def baseEnv : Env where
  standalone := true
  isWindows := false
  python3 := true
  python33 := true
  binaryDir := "B"
  sep := '/'
  marshalOk := fun _ => true
  dlopen := fun _ => some 0
  dlsym := fun _ _ => true
  entryInit := fun _ _ => some ⟨"m", none, none, false⟩
  moduleHasDef := fun _ => true
  fixupOk := true
  execOk := fun _ => true
  initEffect := fun _ d => d
  initError := fun _ => false
  frozenRun := fun _ => FrozenOutcome.loaded
  frozenEffect := fun _ d => d
  entries := []
  frozen := []

/-- The environment of `baseEnv` whose dynamic-library open always fails. -/
def envNoOpen : Env := { baseEnv with dlopen := fun _ => none }

/-- The environment of `baseEnv` whose symbol lookup always fails. -/
def envNoSym : Env := { baseEnv with dlsym := fun _ _ => false }

theorem shlib_open_error_recoverable_symbol_fatal_witness :
    callIntoShlibModule envNoOpen ⟨[], none⟩ "a.b" "f" =
      (⟨[], none⟩, [Event.dlopenCall "f"], ShlibResult.importError) ∧
    callIntoShlibModule envNoSym ⟨[], none⟩ "a.b" "f" =
      (⟨[], none⟩, [Event.dlopenCall "f"], ShlibResult.assertFailure) :=
  ⟨(shlib_open_error_recoverable_symbol_fatal envNoOpen ⟨[], none⟩ "a.b" "f").1 rfl,
   (shlib_open_error_recoverable_symbol_fatal envNoSym ⟨[], none⟩ "a.b" "f").2 0 rfl rfl⟩

/-- C8 (amended): the shared-library loader saves `_Py_PackageContext`, sets
it to the FULL dotted module name for submodules — not the package part —
or to the null context for top-level modules, for the duration of the
entry-point call, and the final state's context equals the saved previous
value whatever the outcome, so the ambient context is unchanged by any
load. -/
theorem shlib_package_context_full_name_and_restored (env : Env) (st : PyState)
    (full_name filename : String) :
    (callIntoShlibModule env st full_name filename).1.packageContext = st.packageContext ∧
    (∀ n sym ctx,
      Event.entryCall n sym ctx ∈ (callIntoShlibModule env st full_name filename).2.1 →
      ('.' ∈ full_name.data → ctx = some full_name) ∧
      ('.' ∉ full_name.data → ctx = none)) := by
  obtain ⟨hctx, htr⟩ := callIntoShlibModule_spec env st full_name filename
  refine ⟨hctx, ?_⟩
  intro n sym ctx hmem
  rcases htr with h | h <;> rw [h] at hmem <;> simp at hmem
  obtain ⟨-, -, hc⟩ := hmem
  subst hc
  exact modulePackageContextValue_spec full_name

theorem shlib_package_context_full_name_and_restored_witness :
    Event.entryCall "a.b" "PyInit_b" (some "a.b") ∈
      (callIntoShlibModule baseEnv ⟨[], none⟩ "a.b" "f").2.1 ∧
    (some "a.b" : Option String) = some "a.b" :=
  ⟨by decide,
   ((shlib_package_context_full_name_and_restored baseEnv ⟨[], none⟩ "a.b" "f").2
      "a.b" "PyInit_b" (some "a.b") (by decide)).1 (by decide)⟩

/-- C8 counterexample: loading the shared-library module "a.b", the ambient
package context during the entry-point call is the full dotted name "a.b" —
not the package part "a" as the claim states. -/
theorem shlib_package_context_counterexample :
    (callIntoShlibModule baseEnv ⟨[], none⟩ "a.b" "f").2.1 =
      [Event.dlopenCall "f", Event.entryCall "a.b" "PyInit_b" (some "a.b")] ∧
    some ("a.b" : String) ≠ some ("a" : String) := by
  exact ⟨by decide, by decide⟩

/-! ### Claim theorems: bytecode loading -/

theorem lookupResult_state (st : PyState) (mn : String) (tr : List Event) :
    (lookupResult st mn tr).1 = st := by
  unfold lookupResult
  cases dictGet st.modules mn <;> rfl

theorem lookupResult_trace (st : PyState) (mn : String) (tr : List Event) :
    (lookupResult st mn tr).2.1 = tr := by
  unfold lookupResult
  cases dictGet st.modules mn <;> rfl

/-- Event trace of a bytecode load that passes unmarshalling and the
module-table-absence assertion: unmarshal, insert into `sys.modules`, set
`__path__` for packages, execute the body with the module visible in the
table, and set `__loader__` on Python >= 3.3 after a successful body run. -/
theorem loadModule_bytecode_trace (env : Env) (st : PyState) (mn : String) (e : LoaderEntry)
    (hns : (env.standalone && e.flags.shlib) = false) (hbc : e.flags.bytecode = true)
    (hm : env.marshalOk e.bytecode_blob = true)
    (habs : dictGet st.modules e.name = none) :
    (loadModule env st mn e).2.1 =
      [Event.marshal e.name, Event.insertModule e.name] ++
      (if e.flags.package then [Event.setPathAttr e.name] else []) ++
      [Event.execModule e.name true] ++
      (if env.execOk e.name && env.python33 then [Event.setLoaderAttr e.name] else []) := by
  cases hpkg : e.flags.package with
  | true =>
    cases hex : env.execOk e.name with
    | false =>
      simp [loadModule, hns, hbc, hm, habs, hpkg, hex, dictGet_dictSet_self]
    | true =>
      cases h33 : env.python33 with
      | false =>
        simp [loadModule, hns, hbc, hm, habs, hpkg, hex, h33, dictGet_dictSet_self,
          lookupResult_trace]
      | true =>
        simp [loadModule, hns, hbc, hm, habs, hpkg, hex, h33, dictGet_dictSet_self,
          lookupResult_trace]
  | false =>
    cases hex : env.execOk e.name with
    | false =>
      simp [loadModule, hns, hbc, hm, habs, hpkg, hex, dictGet_dictSet_self]
    | true =>
      cases h33 : env.python33 with
      | false =>
        simp [loadModule, hns, hbc, hm, habs, hpkg, hex, h33, dictGet_dictSet_self,
          lookupResult_trace]
      | true =>
        simp [loadModule, hns, hbc, hm, habs, hpkg, hex, h33, dictGet_dictSet_self,
          lookupResult_trace]

/-- C2: a Bytecode-entry load inserts the freshly created module into the
host's module table under the entry's exact name strictly before executing
the deserialized code object in its namespace: the trace has the insertion
in the prefix before the (unique, first) body execution event, and the body
executes with the name visible in the table. -/
theorem bytecode_insert_before_exec (env : Env) (st : PyState) (mn : String) (e : LoaderEntry)
    (hsh : e.flags.shlib = false) (hbc : e.flags.bytecode = true)
    (hm : env.marshalOk e.bytecode_blob = true)
    (habs : dictGet st.modules e.name = none) :
    ∃ pre post, (loadModule env st mn e).2.1 = pre ++ Event.execModule e.name true :: post ∧
      Event.insertModule e.name ∈ pre ∧ ∀ v, Event.execModule e.name v ∉ pre := by
  refine ⟨[Event.marshal e.name, Event.insertModule e.name] ++
      (if e.flags.package then [Event.setPathAttr e.name] else []),
    (if env.execOk e.name && env.python33 then [Event.setLoaderAttr e.name] else []),
    ?_, ?_, ?_⟩
  · rw [loadModule_bytecode_trace env st mn e (by simp [hsh]) hbc hm habs]
    simp
  · simp
  · intro v
    by_cases h : e.flags.package = true <;> simp [h]

theorem bytecode_insert_before_exec_witness :
    ∃ pre post,
      (loadModule baseEnv ⟨[], none⟩ "m" ⟨"m", ⟨false, true, false⟩, false, 0⟩).2.1 =
        pre ++ Event.execModule "m" true :: post ∧
      Event.insertModule "m" ∈ pre ∧ ∀ v, Event.execModule "m" v ∉ pre :=
  bytecode_insert_before_exec baseEnv ⟨[], none⟩ "m" ⟨"m", ⟨false, true, false⟩, false, 0⟩
    rfl rfl rfl rfl

/-- Result of a successful bytecode load: the module carries the synthetic
`__file__`, the `__path__` exactly for packages, and `__loader__` from
Python 3.3 on. -/
theorem loadModule_bytecode_ok (env : Env) (st : PyState) (e : LoaderEntry)
    (hns : (env.standalone && e.flags.shlib) = false) (hbc : e.flags.bytecode = true)
    (hm : env.marshalOk e.bytecode_blob = true)
    (habs : dictGet st.modules e.name = none)
    (hex : env.execOk e.name = true) :
    (loadModule env st e.name e).2.2 =
      LoadResult.ok
        { mod_name := e.name,
          mod_file := some (if e.flags.package then
              MAKE_RELATIVE_PATH env.binaryDir env.sep
                (copyModulenameAsPath env.sep e.name ++ String.mk [env.sep] ++ "__init__.py")
            else
              MAKE_RELATIVE_PATH env.binaryDir env.sep
                (copyModulenameAsPath env.sep e.name ++ ".py")),
          mod_path :=
            if e.flags.package then
              some [MAKE_RELATIVE_PATH env.binaryDir env.sep
                (copyModulenameAsPath env.sep e.name)]
            else none,
          mod_loader := env.python33 } := by
  cases hpkg : e.flags.package with
  | true =>
    cases h33 : env.python33 with
    | false =>
      simp [loadModule, hns, hbc, hm, habs, hpkg, hex, h33, dictGet_dictSet_self, lookupResult]
    | true =>
      simp [loadModule, hns, hbc, hm, habs, hpkg, hex, h33, dictGet_dictSet_self, lookupResult]
  | false =>
    cases h33 : env.python33 with
    | false =>
      simp [loadModule, hns, hbc, hm, habs, hpkg, hex, h33, dictGet_dictSet_self, lookupResult]
    | true =>
      simp [loadModule, hns, hbc, hm, habs, hpkg, hex, h33, dictGet_dictSet_self, lookupResult]

/-- C6: after every successful load of a Bytecode entry whose package flag
is set, the resulting module's `__path__` is a single-element list holding
the synthesized package directory path relative to the distribution's base
directory; for non-package Bytecode entries the loader leaves `__path__`
unset. -/
theorem bytecode_path_attribute (env : Env) (st : PyState) (e : LoaderEntry)
    (hsh : e.flags.shlib = false) (hbc : e.flags.bytecode = true)
    (hm : env.marshalOk e.bytecode_blob = true)
    (habs : dictGet st.modules e.name = none)
    (hex : env.execOk e.name = true) :
    ∀ m, (loadModule env st e.name e).2.2 = LoadResult.ok m →
      (e.flags.package = true →
        m.mod_path = some [MAKE_RELATIVE_PATH env.binaryDir env.sep
          (copyModulenameAsPath env.sep e.name)]) ∧
      (e.flags.package = false → m.mod_path = none) := by
  intro m hok
  rw [loadModule_bytecode_ok env st e (by simp [hsh]) hbc hm habs hex] at hok
  injection hok with h
  subst h
  constructor
  · intro h
    simp [h]
  · intro h
    simp [h]

theorem bytecode_path_attribute_witness :
    (⟨"p", some ("B" ++ String.mk ['/'] ++ ("p" ++ String.mk ['/'] ++ "__init__.py")),
        some ["B" ++ String.mk ['/'] ++ "p"], true⟩ : ModuleObj).mod_path =
      some ["B" ++ String.mk ['/'] ++ "p"] :=
  ((bytecode_path_attribute baseEnv ⟨[], none⟩ ⟨"p", ⟨false, true, true⟩, false, 0⟩
      rfl rfl rfl rfl rfl)
    ⟨"p", some ("B" ++ String.mk ['/'] ++ ("p" ++ String.mk ['/'] ++ "__init__.py")),
      some ["B" ++ String.mk ['/'] ++ "p"], true⟩ (by decide)).1 rfl

/-! ### Claim theorems: trigger dispatch and orchestration -/

theorem loadTriggeredModule_events (env : Env) (st : PyState) (name trig : String) :
    (loadTriggeredModule env st name trig).2.1 = [] ∨
    (loadTriggeredModule env st name trig).2.1 = [Event.initFunc (name ++ trig)] := by
  cases h : findEntry env.entries (name ++ trig) with
  | none => simp [loadTriggeredModule, h]
  | some e => simp [loadTriggeredModule, h]

theorem loadTriggeredModule_of_found (env : Env) (st : PyState) (name trig : String)
    (e : LoaderEntry) (h : findEntry env.entries (name ++ trig) = some e) :
    (loadTriggeredModule env st name trig).2.1 = [Event.initFunc (name ++ trig)] := by
  simp [loadTriggeredModule, h]

theorem loadTriggeredModule_of_absent (env : Env) (st : PyState) (name trig : String)
    (h : findEntry env.entries (name ++ trig) = none) :
    loadTriggeredModule env st name trig = (st, [], false) := by
  simp [loadTriggeredModule, h]

/-- Every event emitted by `loadModule` is either the native init-function
call of the dispatched entry itself, or neither an init-function call nor a
frozen import. -/
theorem loadModule_event_kinds (env : Env) (st : PyState) (mn : String) (entry : LoaderEntry)
    (ev : Event) (hmem : ev ∈ (loadModule env st mn entry).2.1) :
    ev = Event.initFunc entry.name ∨
    ((∀ s, ev ≠ Event.initFunc s) ∧ (∀ s, ev ≠ Event.frozenImport s)) := by
  cases hshlib : env.standalone && entry.flags.shlib with
  | true =>
    have htr : (loadModule env st mn entry).2.1 =
        (callIntoShlibModule env st entry.name
          (shlibFilename env.binaryDir env.sep env.isWindows entry.name)).2.1 := by
      cases hres : (callIntoShlibModule env st entry.name
          (shlibFilename env.binaryDir env.sep env.isWindows entry.name)).2.2 <;>
        simp [loadModule, hshlib, hres, lookupResult_trace]
    rw [htr] at hmem
    rcases (callIntoShlibModule_spec env st entry.name
        (shlibFilename env.binaryDir env.sep env.isWindows entry.name)).2 with h | h <;>
      rw [h] at hmem <;> simp at hmem
    · subst hmem
      exact Or.inr ⟨by simp, by simp⟩
    · rcases hmem with rfl | rfl <;> exact Or.inr ⟨by simp, by simp⟩
  | false =>
    cases hbc : entry.flags.bytecode with
    | true =>
      cases hm : env.marshalOk entry.bytecode_blob with
      | false =>
        simp [loadModule, hshlib, hbc, hm] at hmem
        subst hmem
        exact Or.inr ⟨by simp, by simp⟩
      | true =>
        cases habs : dictGet st.modules entry.name with
        | some m =>
          simp [loadModule, hshlib, hbc, hm, habs] at hmem
          subst hmem
          exact Or.inr ⟨by simp, by simp⟩
        | none =>
          rw [loadModule_bytecode_trace env st mn entry hshlib hbc hm habs] at hmem
          by_cases hpkg : entry.flags.package = true <;>
            by_cases hld : (env.execOk entry.name && env.python33) = true <;>
            simp [hpkg, hld] at hmem <;>
            rcases hmem with rfl | rfl | rfl | rfl | rfl <;>
            exact Or.inr ⟨by simp, by simp⟩
    | false =>
      by_cases hsh2 : entry.flags.shlib = true
      · have hsa : env.standalone = false := by
          rw [hsh2] at hshlib
          simpa using hshlib
        simp [loadModule, hsa, hbc, hsh2] at hmem
      · by_cases hif : entry.python_initfunc = false
        · simp [loadModule, hshlib, hbc, hsh2, hif] at hmem
        · have htr : (loadModule env st mn entry).2.1 = [Event.initFunc entry.name] := by
            cases hie : env.initError entry.name <;>
              simp [loadModule, hshlib, hbc, hsh2, hif, hie, lookupResult_trace]
          rw [htr] at hmem
          simp at hmem
          subst hmem
          exact Or.inl rfl

/-- Shape of the `IMPORT_COMPILED_MODULE` trace: either the abstain case
with no events, or the pre-trigger events followed by a load segment (empty,
a frozen import when no entry exists, or `loadModule` events for the found
entry) followed by the post-trigger events. -/
theorem IMPORT_trace_shape (env : Env) (st : PyState) (name : String) :
    (findEntry env.entries name = none ∧ hasFrozenModule env.frozen name = false ∧
      (IMPORT_COMPILED_MODULE env st name).2.1 = []) ∨
    ∃ mid post,
      (IMPORT_COMPILED_MODULE env st name).2.1 =
        (loadTriggeredModule env st name "-preLoad").2.1 ++ mid ++ post ∧
      (mid = [] ∨
        (findEntry env.entries name = none ∧ mid = [Event.frozenImport name]) ∨
        (∃ st1 e, findEntry env.entries name = some e ∧
          mid = (loadModule env st1 name e).2.1)) ∧
      (post = [] ∨ post = [Event.initFunc (name ++ "-postLoad")]) := by
  cases hE : findEntry env.entries name with
  | some e =>
    right
    cases hpre : (loadTriggeredModule env st name "-preLoad").2.2 with
    | true =>
      refine ⟨[], [], ?_, Or.inl rfl, Or.inl rfl⟩
      simp [IMPORT_COMPILED_MODULE, hE, hpre]
    | false =>
      cases hr : (loadModule env (loadTriggeredModule env st name "-preLoad").1 name e).2.2 with
      | abort =>
        refine ⟨(loadModule env (loadTriggeredModule env st name "-preLoad").1 name e).2.1, [],
          ?_, Or.inr (Or.inr ⟨_, e, rfl, rfl⟩), Or.inl rfl⟩
        simp [IMPORT_COMPILED_MODULE, hE, hpre, hr]
      | fail =>
        refine ⟨(loadModule env (loadTriggeredModule env st name "-preLoad").1 name e).2.1, [],
          ?_, Or.inr (Or.inr ⟨_, e, rfl, rfl⟩), Or.inl rfl⟩
        simp [IMPORT_COMPILED_MODULE, hE, hpre, hr]
      | ok m =>
        refine ⟨(loadModule env (loadTriggeredModule env st name "-preLoad").1 name e).2.1,
          (loadTriggeredModule env
            (loadModule env (loadTriggeredModule env st name "-preLoad").1 name e).1
            name "-postLoad").2.1,
          ?_, Or.inr (Or.inr ⟨_, e, rfl, rfl⟩),
          loadTriggeredModule_events env _ name "-postLoad"⟩
        cases hp2 : (loadTriggeredModule env
            (loadModule env (loadTriggeredModule env st name "-preLoad").1 name e).1
            name "-postLoad").2.2 <;>
          simp [IMPORT_COMPILED_MODULE, hE, hpre, hr, hp2]
  | none =>
    cases hfr : hasFrozenModule env.frozen name with
    | false =>
      left
      exact ⟨rfl, rfl, by simp [IMPORT_COMPILED_MODULE, hE, hfr]⟩
    | true =>
      right
      cases hpre : (loadTriggeredModule env st name "-preLoad").2.2 with
      | true =>
        exact ⟨[], [], by simp [IMPORT_COMPILED_MODULE, hE, hfr, hpre], Or.inl rfl, Or.inl rfl⟩
      | false =>
        cases hrun : env.frozenRun name with
        | err =>
          exact ⟨[Event.frozenImport name], [],
            by simp [IMPORT_COMPILED_MODULE, hE, hfr, hpre, hrun],
            Or.inr (Or.inl ⟨rfl, rfl⟩), Or.inl rfl⟩
        | notFound =>
          exact ⟨[Event.frozenImport name], [],
            by simp [IMPORT_COMPILED_MODULE, hE, hfr, hpre, hrun],
            Or.inr (Or.inl ⟨rfl, rfl⟩), Or.inl rfl⟩
        | loaded =>
          cases hlook : dictGet (env.frozenEffect name
              (loadTriggeredModule env st name "-preLoad").1.modules) name with
          | none =>
            exact ⟨[Event.frozenImport name], [],
              by simp [IMPORT_COMPILED_MODULE, hE, hfr, hpre, hrun, hlook],
              Or.inr (Or.inl ⟨rfl, rfl⟩), Or.inl rfl⟩
          | some m =>
            refine ⟨[Event.frozenImport name],
              (loadTriggeredModule env
                ⟨env.frozenEffect name (loadTriggeredModule env st name "-preLoad").1.modules,
                  (loadTriggeredModule env st name "-preLoad").1.packageContext⟩
                name "-postLoad").2.1,
              ?_, Or.inr (Or.inl ⟨rfl, rfl⟩),
              loadTriggeredModule_events env _ name "-postLoad"⟩
            cases hp2 : (loadTriggeredModule env
                ⟨env.frozenEffect name (loadTriggeredModule env st name "-preLoad").1.modules,
                  (loadTriggeredModule env st name "-preLoad").1.packageContext⟩
                name "-postLoad").2.2 <;>
              simp [IMPORT_COMPILED_MODULE, hE, hfr, hpre, hrun, hlook, hp2]

/-- The `-preLoad` init-function event of `foo` cannot occur in the load
segment or the `-postLoad` segment of an import trace. -/
theorem preLoad_initFunc_not_in_parts (env : Env) (foo : String) (mid post : List Event)
    (hmid : mid = [] ∨
      (findEntry env.entries foo = none ∧ mid = [Event.frozenImport foo]) ∨
      (∃ st1 e, findEntry env.entries foo = some e ∧ mid = (loadModule env st1 foo e).2.1))
    (hpost : post = [] ∨ post = [Event.initFunc (foo ++ "-postLoad")]) :
    Event.initFunc (foo ++ "-preLoad") ∉ mid ++ post := by
  intro hmem
  rcases List.mem_append.1 hmem with h1 | h2
  · rcases hmid with rfl | ⟨-, rfl⟩ | ⟨st1, e, hE, rfl⟩
    · simp at h1
    · simp at h1
    · rcases loadModule_event_kinds env st1 foo e _ h1 with hk | hk
      · have hname := findEntry_name hE
        rw [hname] at hk
        have : foo ++ "-preLoad" = foo := by
          injection hk
        exact string_ne_append_of_data_ne_nil foo "-preLoad" (by decide) this.symm
      · exact hk.1 (foo ++ "-preLoad") rfl
  · rcases hpost with rfl | rfl
    · simp at h2
    · simp at h2
      have := string_append_left_cancel h2
      simp at this

/-- C10: a registry entry takes precedence over a frozen module of the same
name — whenever registry lookup finds an entry, the host's frozen-module
loading path is never invoked during that load. -/
theorem registry_entry_precedes_frozen (env : Env) (st : PyState) (name : String)
    (e : LoaderEntry) (h : findEntry env.entries name = some e) :
    ∀ s, Event.frozenImport s ∉ (IMPORT_COMPILED_MODULE env st name).2.1 := by
  intro s hmem
  rcases IMPORT_trace_shape env st name with ⟨hnone, -, -⟩ | ⟨mid, post, htr, hmid, hpost⟩
  · rw [h] at hnone
    simp at hnone
  · rw [htr] at hmem
    rcases List.mem_append.1 hmem with h1 | h2
    · rcases List.mem_append.1 h1 with h1a | h1b
      · rcases loadTriggeredModule_events env st name "-preLoad" with hp | hp <;>
          rw [hp] at h1a <;> simp at h1a
      · rcases hmid with rfl | ⟨hE, -⟩ | ⟨st1, e2, hE, rfl⟩
        · simp at h1b
        · rw [h] at hE
          simp at hE
        · rcases loadModule_event_kinds env st1 name e2 _ h1b with hk | hk
          · simp at hk
          · exact hk.2 s rfl
    · rcases hpost with rfl | rfl
      · simp at h2
      · simp at h2

/-- The environment of `baseEnv` with a Bytecode entry "m" that is also in
the frozen-module table. -/
def envBoth : Env :=
  { baseEnv with entries := [⟨"m", ⟨false, true, false⟩, false, 0⟩], frozen := ["m"] }

theorem registry_entry_precedes_frozen_witness :
    Event.frozenImport "m" ∉ (IMPORT_COMPILED_MODULE envBoth ⟨[], none⟩ "m").2.1 :=
  registry_entry_precedes_frozen envBoth ⟨[], none⟩ "m" ⟨"m", ⟨false, true, false⟩, false, 0⟩
    rfl "m"

/-- C4: for a module `foo` that has a registry entry or is frozen, if an
entry named exactly `foo ++ "-preLoad"` exists then loading `foo` invokes
that entry's init function exactly once, as the very first event, strictly
before any event of `foo`'s own load; if no such entry exists, no trigger
invocation occurs and the trigger dispatch returns without error. -/
theorem preload_trigger_dispatch (env : Env) (st : PyState) (foo : String)
    (hreal : (findEntry env.entries foo).isSome = true ∨
      hasFrozenModule env.frozen foo = true) :
    ((∃ te, findEntry env.entries (foo ++ "-preLoad") = some te) →
      ∃ rest, (IMPORT_COMPILED_MODULE env st foo).2.1 =
          Event.initFunc (foo ++ "-preLoad") :: rest ∧
        Event.initFunc (foo ++ "-preLoad") ∉ rest) ∧
    (findEntry env.entries (foo ++ "-preLoad") = none →
      loadTriggeredModule env st foo "-preLoad" = (st, [], false) ∧
      Event.initFunc (foo ++ "-preLoad") ∉ (IMPORT_COMPILED_MODULE env st foo).2.1) := by
  have hshape := IMPORT_trace_shape env st foo
  have hnotAbstain : ¬ (findEntry env.entries foo = none ∧
      hasFrozenModule env.frozen foo = false ∧
      (IMPORT_COMPILED_MODULE env st foo).2.1 = []) := by
    rintro ⟨hn, hf, -⟩
    rcases hreal with hr | hr
    · rw [hn] at hr
      simp at hr
    · rw [hr] at hf
      exact Bool.true_eq_false.mp hf
  constructor
  · rintro ⟨te, hte⟩
    rcases hshape with habst | ⟨mid, post, htr, hmid, hpost⟩
    · exact absurd habst hnotAbstain
    · rw [loadTriggeredModule_of_found env st foo "-preLoad" te hte] at htr
      refine ⟨mid ++ post, by simpa using htr, ?_⟩
      exact preLoad_initFunc_not_in_parts env foo mid post hmid hpost
  · intro habs
    refine ⟨loadTriggeredModule_of_absent env st foo "-preLoad" habs, ?_⟩
    rcases hshape with ⟨-, -, htr⟩ | ⟨mid, post, htr, hmid, hpost⟩
    · rw [htr]
      simp
    · rw [htr]
      have hpre : (loadTriggeredModule env st foo "-preLoad").2.1 = [] := by
        rw [loadTriggeredModule_of_absent env st foo "-preLoad" habs]
      rw [hpre]
      simpa using preLoad_initFunc_not_in_parts env foo mid post hmid hpost

/-- The environment of `baseEnv` with a Bytecode entry "m" and a native
trigger entry "m-preLoad". -/
def envTrig : Env :=
  { baseEnv with entries :=
      [⟨"m", ⟨false, true, false⟩, false, 0⟩, ⟨"m-preLoad", ⟨false, false, false⟩, true, 0⟩] }

theorem preload_trigger_dispatch_witness :
    ∃ rest, (IMPORT_COMPILED_MODULE envTrig ⟨[], none⟩ "m").2.1 =
        Event.initFunc ("m" ++ "-preLoad") :: rest ∧
      Event.initFunc ("m" ++ "-preLoad") ∉ rest :=
  (preload_trigger_dispatch envTrig ⟨[], none⟩ "m" (Or.inl rfl)).1
    ⟨⟨"m-preLoad", ⟨false, false, false⟩, true, 0⟩, by decide⟩

end MetaPathLoader
